import Mathlib

/-!
# Verification of the rusteroids simulation core (src/main.rs)

A shallow embedding of the simulation systems of `src/main.rs` — the
lifetime manager, the gravity and drag integrators, the planet- and
asteroid-collision resolvers, the planet collapse curve and the
Playing-state setup — together with theorems settling the frozen claims
about them.

Conventions of the embedding:
* `f32` scalars are modelled as exact rationals (`ℚ`); `Duration` values
  are modelled as `ℕ` (an abstract unit, the code only ever subtracts and
  compares them).
* Euclidean lengths are irrational in general, so wherever the source
  merely *compares* a distance (`Vec3::distance(a, b) < s`) we use the
  square-free equivalent `0 < s ∧ dist2 a b < s * s` (valid because a
  distance is nonnegative), and wherever the source *uses* the length as a
  number (`normalize`, drag division) the length is an explicit argument
  constrained by `len * len = dist2 …` and `0 ≤ len` in the theorems.
* `cos`/`sin` on `f32` angles are modelled by oracle functions
  `cosF sinF : ℚ → ℚ`; angle draws are opaque rational tokens.
* The `rand` thread RNG is modelled by streams `rq : ℕ → ℚ` (the
  `gen_range` float draws, consumed in call order) and `rs : ℕ → ℕ`
  (the `gen::<u64>` shape-seed draws).
* Bevy `Commands` are buffered: a system's despawns and spawns are
  collected and the post-pass store is computed from them; a double
  despawn of one entity removes it once (bevy logs and ignores the
  second), which the despawn *lists* below make observable.
-/

namespace Rusteroids

/-! ## Constants (src/main.rs lines 43-100) -/

def GRAVITY : ℚ := 250

def SHIP_RADIUS : ℚ := 10

def SHIP_MASS : ℚ := 10

def BULLET_LIFETIME_MS : ℕ := 3000

def PLANET_START_RADIUS : ℚ := 30

def PLANET_START_MASS : ℚ := 500

def PLANET_RADIUS_CONSUME_SCALE : ℚ := 3 / 10

def PLANET_MASS_CONSUME_SCALE : ℚ := 5

def PLANET_MASS_COLLAPSE_TRIGGER : ℚ := 2500

def PLANET_COLLAPSE_TIME_MS : ℚ := 1500

def PLANET_COLLAPSE_SIZE : ℚ := 2

def PLANET_COLLAPSE_MASS : ℚ := 30000

def ASTEROID_LIFETIME_MS : ℕ := 60000

def ASTEROID_DRAG_CONSTANT : ℚ := 300

def ASTEROID_DRAG_RADIUS_CONTRIBUTION : ℚ := 5

def ASTEROID_FRACTURE_COUNT : ℕ := 3

def ASTEROID_FRACTURE_RADIUS_FACTOR : ℚ := 3 / 10

def ASTEROID_FRACTURE_MASS_FACTOR : ℚ := 3 / 10

def ASTEROID_FRACTURE_MIN_RADIUS : ℚ := 4

def ASTEROID_FRACTURE_VEL_MIN : ℚ := 10

def ASTEROID_FRACTURE_VEL_MAX : ℚ := 30

def EXPLOSION_MAX_LIFE_MS : ℕ := 500

def SCORE_BOUNDS_MIN : ℚ := 10

def SCORE_BOUNDS_MAX : ℚ := 80

def SCORE_ASTEROID_RADIUS_MIN : ℚ := 4

def SCORE_ASTEROID_RADIUS_MAX : ℚ := 20

/-! ## Vectors and the square-free distance test -/

/-- `glam::Vec2` with exact rational components. -/
structure V2 where
  x : ℚ
  y : ℚ
deriving DecidableEq, Repr, Inhabited

/-- `glam::Vec3` with exact rational components (entity `Transform`
translations; the game keeps `z = 0` but the source compares full 3D
distances, so `z` is kept). -/
structure V3 where
  x : ℚ
  y : ℚ
  z : ℚ
deriving DecidableEq, Repr, Inhabited

/-- Squared Euclidean distance between two translations. -/
def dist2 (a b : V3) : ℚ :=
  (a.x - b.x) ^ 2 + (a.y - b.y) ^ 2 + (a.z - b.z) ^ 2

/-- The source's circle-overlap test `Vec3::distance(a, b) < s`.  Since a
Euclidean distance is nonnegative, `dist a b < s` holds iff
`0 < s ∧ (dist a b)^2 < s^2`, and `(dist a b)^2 = dist2 a b` exactly; this
square-free form avoids the irrational square root. -/
def distLt (a b : V3) (s : ℚ) : Bool :=
  decide (0 < s ∧ dist2 a b < s * s)

/-! ## Lifetime control (src/main.rs lines 352-366)

`lifetime_control` runs once per frame over every entity with a
`Lifetime`: a nonzero lifetime is decremented by the frame delta, floored
at zero (`Duration` subtraction is guarded by the `>` test), and the
entity whose post-update lifetime is zero is despawned in that same
pass. -/

/-- One frame's update of one `Lifetime` value (the body of the first
`if` of `lifetime_control`). -/
def lifetimeStep (l dt : ℕ) : ℕ :=
  if l ≠ 0 then (if dt < l then l - dt else 0) else l

/-- One frame of `lifetime_control` for one entity: the updated lifetime
and whether the entity was despawned this frame (the trailing
`if lifetime.is_zero() { despawn }` check). -/
def lifetime_control (l dt : ℕ) : ℕ × Bool :=
  let l2 := lifetimeStep l dt
  (l2, l2 == 0)

/-- The lifetime value after `k` frames of `lifetime_control`. -/
def lifetimeAfter (l dt : ℕ) : ℕ → ℕ
  | 0 => l
  | k + 1 => lifetimeStep (lifetimeAfter l dt k) dt

/-! ## Gravity (src/main.rs lines 405-417)

`apply_gravity` adds, for every planet and every entity with mass and
velocity, `direction * force * dt` to the entity's velocity, where
`direction` is the separation vector normalized and
`force = GRAVITY * (m_planet * m_entity) / max(1, distance²)`.  The
Euclidean length of the separation is passed explicitly as `len`
(constrained by `len * len = dist2 …`, `0 ≤ len` where a theorem needs
it); `normalize()` divides each component by that length, and the source
forms the squared distance as `distance * distance`. -/

/-- The gravity force scalar of src/main.rs line 412. -/
def gravityForce (planetMass entityMass len : ℚ) : ℚ :=
  GRAVITY * (planetMass * entityMass) / max 1 (len * len)

/-- One planet/entity step of `apply_gravity`: the entity's new velocity. -/
def apply_gravity (planetPos : V3) (planetMass : ℚ) (entityPos : V3)
    (entityMass : ℚ) (vel : V2) (len dt : ℚ) : V2 :=
  let gvx := (planetPos.x - entityPos.x) / len
  let gvy := (planetPos.y - entityPos.y) / len
  let force := gravityForce planetMass entityMass len
  ⟨vel.x + gvx * force * dt, vel.y + gvy * force * dt⟩

/-! ## Asteroid drag (src/main.rs lines 596-612)

`asteroid_drag` reduces each asteroid's speed by
`dt * (ASTEROID_DRAG_CONSTANT + radius * ASTEROID_DRAG_RADIUS_CONTRIBUTION)
/ (center distance - planet radius)`, floored at zero, then rescales the
velocity to the reduced speed via `normalize()`.  Both the center distance
`centerDist` and the current speed `speed` (`velocity.length()`) are
irrational square roots, so they are explicit arguments constrained in the
theorems.  `v.normalize() * s` is `v * (s / speed)` componentwise. -/

/-- The surface distance and drag factor of src/main.rs lines 601-602:
`dt * (ASTEROID_DRAG_CONSTANT + radius * ASTEROID_DRAG_RADIUS_CONTRIBUTION)
/ (center distance - planet radius)`. -/
def dragFactor (planetRadius asteroidRadius centerDist dt : ℚ) : ℚ :=
  dt * (ASTEROID_DRAG_CONSTANT
    + asteroidRadius * ASTEROID_DRAG_RADIUS_CONTRIBUTION)
    / (centerDist - planetRadius)

def asteroid_drag (planetRadius asteroidRadius centerDist dt : ℚ)
    (vel : V2) (speed : ℚ) : V2 :=
  let dragF := dragFactor planetRadius asteroidRadius centerDist dt
  let newSpeed := if dragF < speed then speed - dragF else 0
  ⟨vel.x / speed * newSpeed, vel.y / speed * newSpeed⟩

/-! ## The planet and `planet_colision` (src/main.rs lines 140-157, 476-504)

The `Planet` component carries the collapse state; its radius and mass
live in separate `Radius`/`Mass` components and are therefore separate
arguments/results here.  `planet_colision` scans every non-planet entity
with radius, mass and transform: an entity overlapping the planet (tested
against the *running* accumulated radius) is despawned, and a non-bullet
entity adds `radius * PLANET_RADIUS_CONSUME_SCALE` and
`mass * PLANET_MASS_CONSUME_SCALE` to running accumulators.  Only if the
planet is not collapsing are the accumulators written back, and then a
mass at or above `PLANET_MASS_COLLAPSE_TRIGGER` starts the collapse,
snapshotting the just-written radius and mass and zeroing the timer. -/

/-- The `Planet` component (src/main.rs lines 140-146). -/
structure Planet where
  collapsing : Bool
  collapse_init_size : ℚ
  collapse_init_mass : ℚ
  collapse_timer : ℚ
deriving DecidableEq, Repr

/-- `Planet::new()` (src/main.rs lines 148-157). -/
def Planet.new : Planet :=
  { collapsing := false, collapse_init_size := 0, collapse_init_mass := 0
    collapse_timer := 0 }

/-- A non-planet entity as `planet_colision`'s query sees it: radius,
mass, translation, and whether it has the `Bullet` tag. -/
structure Entity where
  radius : ℚ
  mass : ℚ
  pos : V3
  isBullet : Bool
deriving DecidableEq, Repr

/-- The entity loop of `planet_colision` (src/main.rs lines 480-491):
given the running accumulated radius and mass, returns the final
accumulators and the surviving (not despawned) entities in order. -/
def planetConsume (ppos : V3) : ℚ → ℚ → List Entity → ℚ × ℚ × List Entity
  | pr, pm, [] => (pr, pm, [])
  | pr, pm, e :: es =>
    if distLt ppos e.pos (pr + e.radius) then
      let pr2 := if e.isBullet then pr else pr + e.radius * PLANET_RADIUS_CONSUME_SCALE
      let pm2 := if e.isBullet then pm else pm + e.mass * PLANET_MASS_CONSUME_SCALE
      planetConsume ppos pr2 pm2 es
    else
      let r := planetConsume ppos pr pm es
      (r.1, r.2.1, e :: r.2.2)

/-- One pass of `planet_colision` for one planet: the new `Planet`
component, the new planet radius and mass, and the surviving entities.
The source writes the accumulators back and tests the collapse trigger
only under `if !planet.collapsing`; the collapsing case leaves the
written radius/mass (and the `Planet` component) untouched. -/
def planet_colision (p : Planet) (pr pm : ℚ) (ppos : V3)
    (es : List Entity) : Planet × ℚ × ℚ × List Entity :=
  let acc := planetConsume ppos pr pm es
  if p.collapsing then
    (p, pr, pm, acc.2.2)
  else if PLANET_MASS_COLLAPSE_TRIGGER ≤ acc.2.1 then
    ({ collapsing := true, collapse_init_size := acc.1
       collapse_init_mass := acc.2.1, collapse_timer := 0 },
     acc.1, acc.2.1, acc.2.2)
  else
    (p, acc.1, acc.2.1, acc.2.2)

/-! ## `planet_collapse` (src/main.rs lines 506-515) -/

/-- One frame of `planet_collapse` for one planet: the updated `Planet`
component and the new radius and mass.  `dtMs` is the frame delta in
milliseconds (`time.delta().as_millis() as f32`).  The timer is clamped
to `PLANET_COLLAPSE_TIME_MS` by `f32::min`; `powf(8.0)` on the clamped
nonnegative factor is the eighth power. -/
def planet_collapse (p : Planet) (radius mass dtMs : ℚ) : Planet × ℚ × ℚ :=
  if p.collapsing then
    let timer := min PLANET_COLLAPSE_TIME_MS (p.collapse_timer + dtMs)
    let factor := timer / PLANET_COLLAPSE_TIME_MS
    ({ p with collapse_timer := timer },
     PLANET_COLLAPSE_SIZE
       + (1 - factor ^ 8) * (p.collapse_init_size - PLANET_COLLAPSE_SIZE),
     p.collapse_init_mass + factor * (PLANET_COLLAPSE_MASS - p.collapse_init_mass))
  else
    (p, radius, mass)

/-! ## `asteroid_collision` (src/main.rs lines 517-561)

The pass iterates all asteroids, and for each asteroid all bullets; every
overlapping pair despawns both (buffered, so an already-hit asteroid is
still scanned against later bullets), spawns an `Explosion` at the
asteroid's translation with its velocity, adds the radius-scaled score to
the `Game` resource, and — if the asteroid's radius exceeds
`ASTEROID_FRACTURE_MIN_RADIUS` — spawns `ASTEROID_FRACTURE_COUNT`
fracture children.  Note the source draws *two* independent
`gen_range(ASTEROID_FRACTURE_VEL_MIN..ASTEROID_FRACTURE_VEL_MAX)` values
per child, one for the x velocity component and one for the y. -/

/-- An asteroid as the pass's query sees it. -/
structure AsteroidE where
  radius : ℚ
  mass : ℚ
  pos : V3
  vel : V2
deriving DecidableEq, Repr

/-- A bullet as the pass's query sees it. -/
structure BulletE where
  radius : ℚ
  pos : V3
deriving DecidableEq, Repr

/-- An `Explosion` spawn: translation, inherited velocity, lifetime. -/
structure ExplosionE where
  pos : V3
  vel : V2
  life : ℕ
deriving DecidableEq, Repr

/-- A fracture-child asteroid spawn (src/main.rs lines 548-554). -/
structure ChildE where
  seed : ℕ
  radius : ℚ
  mass : ℚ
  pos : V3
  vel : V2
  life : ℕ
deriving DecidableEq, Repr, Inhabited

/-- The raw score of src/main.rs lines 532-533:
`(1 - (radius - SCORE_ASTEROID_RADIUS_MIN) /
 (SCORE_ASTEROID_RADIUS_MAX - SCORE_ASTEROID_RADIUS_MIN)) *
 (SCORE_BOUNDS_MAX - SCORE_BOUNDS_MIN)`. -/
def asteroidScore (radius : ℚ) : ℚ :=
  (1 - (radius - SCORE_ASTEROID_RADIUS_MIN)
      / (SCORE_ASTEROID_RADIUS_MAX - SCORE_ASTEROID_RADIUS_MIN))
    * (SCORE_BOUNDS_MAX - SCORE_BOUNDS_MIN)

/-- Rust's `as u32` cast from a float: truncation toward zero, saturating
at `0` below and at `u32::MAX` above. -/
def ratToU32 (q : ℚ) : ℕ :=
  if q < 0 then 0 else min (2 ^ 32 - 1) (Int.toNat (Int.floor q))

/-- The fracture block of src/main.rs lines 535-557 for one destroyed
asteroid.  `cosF`/`sinF` are the trig oracles, `twoPi` the f32 value of
`2.0 * std::f32::consts::PI`, `rq`/`rs` the RNG streams and `iq`/`is` the
next unread positions in them.  Returns the spawned children and the
advanced stream positions.  The source draws the base angle first, then
per child one shape seed and two velocity magnitudes. -/
def fractureChildren (cosF sinF : ℚ → ℚ) (twoPi : ℚ) (rq : ℕ → ℚ)
    (rs : ℕ → ℕ) (iq is : ℕ) (a : AsteroidE) : List ChildE × ℕ × ℕ :=
  if ASTEROID_FRACTURE_MIN_RADIUS < a.radius then
    let newRadius := a.radius * ASTEROID_FRACTURE_RADIUS_FACTOR
    let newMass := a.mass * ASTEROID_FRACTURE_MASS_FACTOR
    let angleSection := twoPi / (ASTEROID_FRACTURE_COUNT : ℚ)
    let angle0 := rq iq
    let children := (List.range ASTEROID_FRACTURE_COUNT).map fun (i : ℕ) =>
      let spawnAngle := angle0 + (i : ℚ) * angleSection
      { seed := rs (is + i)
        radius := newRadius
        mass := newMass
        pos := ⟨a.pos.x + newRadius * cosF spawnAngle,
                a.pos.y + newRadius * sinF spawnAngle, 0⟩
        vel := ⟨a.vel.x + cosF spawnAngle * rq (iq + 1 + 2 * i),
                a.vel.y + sinF spawnAngle * rq (iq + 2 + 2 * i)⟩
        life := ASTEROID_LIFETIME_MS }
    (children, iq + 1 + 2 * ASTEROID_FRACTURE_COUNT, is + ASTEROID_FRACTURE_COUNT)
  else
    ([], iq, is)

/-- The buffered effects of one `asteroid_collision` pass: the issued
asteroid/bullet despawns (by query index, in issue order, possibly with
repeats), the spawned explosions and fracture children, the `Game` score
(a `u32`, updated immediately), and the RNG stream positions. -/
structure PassOut where
  despawnA : List ℕ
  despawnB : List ℕ
  explosions : List ExplosionE
  children : List ChildE
  score : ℕ
  iq : ℕ
  is : ℕ
deriving DecidableEq, Repr

/-- The body of the overlap branch (src/main.rs lines 525-557) for the
pair (asteroid `ai`, bullet `bi`). -/
def hitEffects (cosF sinF : ℚ → ℚ) (twoPi : ℚ) (rq : ℕ → ℚ) (rs : ℕ → ℕ)
    (ai bi : ℕ) (a : AsteroidE) (st : PassOut) : PassOut :=
  let fr := fractureChildren cosF sinF twoPi rq rs st.iq st.is a
  { despawnA := st.despawnA ++ [ai]
    despawnB := st.despawnB ++ [bi]
    explosions := st.explosions ++ [⟨a.pos, a.vel, EXPLOSION_MAX_LIFE_MS⟩]
    children := st.children ++ fr.1
    score := (st.score + ratToU32 (asteroidScore a.radius)) % 2 ^ 32
    iq := fr.2.1
    is := fr.2.2 }

/-- The inner bullet loop for one asteroid (src/main.rs lines 521-558):
`bi` is the query index of the head of `bs`. -/
def scanBullets (cosF sinF : ℚ → ℚ) (twoPi : ℚ) (rq : ℕ → ℚ) (rs : ℕ → ℕ)
    (ai : ℕ) (a : AsteroidE) : ℕ → List BulletE → PassOut → PassOut
  | _, [], st => st
  | bi, b :: bs, st =>
    scanBullets cosF sinF twoPi rq rs ai a (bi + 1) bs
      (if distLt a.pos b.pos (a.radius + b.radius) then
        hitEffects cosF sinF twoPi rq rs ai bi a st
      else st)

/-- The outer asteroid loop (src/main.rs lines 518-560): `ai` is the
query index of the head of the asteroid list. -/
def asteroidLoop (cosF sinF : ℚ → ℚ) (twoPi : ℚ) (rq : ℕ → ℚ) (rs : ℕ → ℕ)
    (bullets : List BulletE) : ℕ → List AsteroidE → PassOut → PassOut
  | _, [], st => st
  | ai, a :: rest, st =>
    asteroidLoop cosF sinF twoPi rq rs bullets (ai + 1) rest
      (scanBullets cosF sinF twoPi rq rs ai a 0 bullets st)

/-- One full `asteroid_collision` pass over the stores as the queries saw
them at the start of the frame. -/
def asteroid_collision (cosF sinF : ℚ → ℚ) (twoPi : ℚ) (rq : ℕ → ℚ)
    (rs : ℕ → ℕ) (asteroids : List AsteroidE) (bullets : List BulletE)
    (score0 : ℕ) : PassOut :=
  asteroidLoop cosF sinF twoPi rq rs bullets 0 asteroids
    { despawnA := [], despawnB := [], explosions := [], children := []
      score := score0, iq := 0, is := 0 }

/-- The store after applying a buffered despawn list, counting query
indices from `i`: entities whose index was despawned (once or more) are
gone. -/
def remainingFrom {α : Type} : ℕ → List α → List ℕ → List α
  | _, [], _ => []
  | i, x :: xs, d =>
    if d.contains i then remainingFrom (i + 1) xs d
    else x :: remainingFrom (i + 1) xs d

/-- The store after applying a buffered despawn list. -/
def remaining {α : Type} (xs : List α) (despawned : List ℕ) : List α :=
  remainingFrom 0 xs despawned

/-! ## `setup_playing` (src/main.rs lines 238-274) and the `Game` resource -/

/-- The `Game` resource (src/main.rs lines 112-118). -/
structure Game where
  score : ℕ
  time : ℕ
  gameover_time : ℕ
  draw_trajectory : Bool
deriving DecidableEq, Repr

/-- The `Ship` bundle `setup_playing` spawns. -/
structure ShipE where
  fire_delay : ℕ
  radius : ℚ
  mass : ℚ
  pos : V3
  vel : V2
  angvel : ℚ
deriving DecidableEq, Repr

/-- `setup_playing`: spawns the Ship and the Planet (with its radius,
mass and translation) and then sets `game.gameover_time = 0`,
`game.score = 0`, `game.time = 0`.  The `draw_trajectory` field is not
touched. -/
def setup_playing (g : Game) : Game × ShipE × (Planet × ℚ × ℚ × V3) :=
  ({ g with gameover_time := 0, score := 0, time := 0 },
   { fire_delay := 0, radius := SHIP_RADIUS, mass := SHIP_MASS
     pos := ⟨0, 300, 0⟩, vel := ⟨0, 0⟩, angvel := 0 },
   (Planet.new, PLANET_START_RADIUS, PLANET_START_MASS, ⟨0, 0, 0⟩))

/-! # Theorems

Helper lemmas first, then one theorem per claim (with witness or
counterexample theorems where a claim needs them). -/

/-- Overlap is monotone in the radius sum (used because `planet_colision`
tests later entities against the radius grown by earlier consumptions). -/
theorem distLt_mono {a b : V3} {s t : ℚ} (h : distLt a b s = true)
    (hst : s ≤ t) : distLt a b t = true := by
  simp only [distLt, decide_eq_true_eq] at h ⊢
  refine ⟨lt_of_lt_of_le h.1 hst, lt_of_lt_of_le h.2 ?_⟩
  nlinarith [h.1, h.2]

/-- `lifetime_control`'s update is truncated subtraction. -/
theorem lifetimeStep_eq_sub (l dt : ℕ) : lifetimeStep l dt = l - dt := by
  unfold lifetimeStep
  split
  · split <;> omega
  · omega

theorem lifetimeAfter_eq_sub (l dt k : ℕ) : lifetimeAfter l dt k = l - k * dt := by
  induction k with
  | zero => simp [lifetimeAfter]
  | succ m ih =>
    simp only [lifetimeAfter, lifetimeStep_eq_sub, ih]
    rw [Nat.succ_mul, ← Nat.sub_sub]

/-- C7: an entity's remaining lifetime is `max (0, L - dt)` after one
`lifetime_control` pass and `max (0, L - k·dt)` after `k` passes (never
negative, no wraparound), and the pass despawns the entity exactly when
the freshly updated lifetime is zero, i.e. pass `k + 1` removes it iff
`L ≤ (k+1)·dt`, so it is removed in the first frame its lifetime reaches
zero and never survives to a later one. -/
theorem lifetime_expiry (l dt k : ℕ) :
    (lifetime_control l dt).1 = l - dt ∧
    lifetimeAfter l dt k = l - k * dt ∧
    ((lifetime_control (lifetimeAfter l dt k) dt).2 = true ↔ l ≤ (k + 1) * dt) := by
  refine ⟨lifetimeStep_eq_sub l dt, lifetimeAfter_eq_sub l dt k, ?_⟩
  simp only [lifetime_control, lifetimeStep_eq_sub, lifetimeAfter_eq_sub,
    beq_iff_eq]
  rw [Nat.succ_mul]
  omega

/-- C5: the gravity step adds `direction * force * dt` to the velocity,
with `direction` the separation normalized (components divided by the
length) and `force = GRAVITY * (m_planet * m_entity) / max 1 d²`; and for
nonnegative masses the force never exceeds `GRAVITY * m_planet * m_entity`
at any separation, the near-zero case included (`max 1` floors the
denominator at 1). -/
theorem apply_gravity_spec (planetPos entityPos : V3)
    (planetMass entityMass : ℚ) (vel : V2) (len dt : ℚ)
    (hm1 : 0 ≤ planetMass) (hm2 : 0 ≤ entityMass) :
    apply_gravity planetPos planetMass entityPos entityMass vel len dt =
      ⟨vel.x + (planetPos.x - entityPos.x) / len
          * gravityForce planetMass entityMass len * dt,
       vel.y + (planetPos.y - entityPos.y) / len
          * gravityForce planetMass entityMass len * dt⟩ ∧
    gravityForce planetMass entityMass len
      ≤ GRAVITY * (planetMass * entityMass) := by
  refine ⟨rfl, ?_⟩
  have hG : (0 : ℚ) ≤ GRAVITY := by norm_num [GRAVITY]
  exact div_le_self (mul_nonneg hG (mul_nonneg hm1 hm2)) (le_max_left _ _)

/-- Witness for C5 at zero separation (`len = 0`, the `d → 0` case). -/
theorem apply_gravity_spec_witness :
    gravityForce 500 10 0 ≤ GRAVITY * (500 * 10) :=
  (apply_gravity_spec ⟨0, 0, 0⟩ ⟨0, 0, 0⟩ 500 10 ⟨0, 0⟩ 0 1
    (by norm_num) (by norm_num)).2

/-- C6 (the positive-speed part; see the counterexample discussion of the
zero-speed case): for an asteroid moving with speed `speed > 0`, one drag
step rescales the velocity to the speed reduced by the drag factor and
floored at zero, preserving the direction: the result is
`(max 0 (speed - drag) / speed) • vel`, its squared length is
`(max 0 (speed - drag))²`, and it is collinear with `vel`. -/
theorem asteroid_drag_spec (planetRadius asteroidRadius centerDist dt : ℚ)
    (vel : V2) (speed : ℚ) (hspeed : 0 < speed)
    (hlen : speed * speed = vel.x ^ 2 + vel.y ^ 2) :
    asteroid_drag planetRadius asteroidRadius centerDist dt vel speed =
      ⟨vel.x / speed
          * max 0 (speed - dragFactor planetRadius asteroidRadius centerDist dt),
       vel.y / speed
          * max 0 (speed - dragFactor planetRadius asteroidRadius centerDist dt)⟩ ∧
    (vel.x / speed
        * max 0 (speed - dragFactor planetRadius asteroidRadius centerDist dt)) ^ 2
      + (vel.y / speed
        * max 0 (speed - dragFactor planetRadius asteroidRadius centerDist dt)) ^ 2
      = max 0 (speed - dragFactor planetRadius asteroidRadius centerDist dt) ^ 2 ∧
    vel.x / speed
        * max 0 (speed - dragFactor planetRadius asteroidRadius centerDist dt)
        * vel.y
      = vel.y / speed
        * max 0 (speed - dragFactor planetRadius asteroidRadius centerDist dt)
        * vel.x := by
  have hne : speed ≠ 0 := ne_of_gt hspeed
  set D := dragFactor planetRadius asteroidRadius centerDist dt with hD
  have hmax : (if D < speed then speed - D else 0) = max 0 (speed - D) := by
    split
    · rw [max_eq_right]
      linarith
    · rw [max_eq_left]
      linarith
  refine ⟨?_, ?_, by ring⟩
  · simp only [asteroid_drag]
    rw [hmax]
  · have expand : (vel.x / speed * max 0 (speed - D)) ^ 2
        + (vel.y / speed * max 0 (speed - D)) ^ 2
        = (vel.x ^ 2 + vel.y ^ 2) / (speed * speed) * max 0 (speed - D) ^ 2 := by
      field_simp
      ring
    rw [expand, ← hlen, div_self (mul_ne_zero hne hne), one_mul]

/-- Witness for C6's theorem: a speed-5 asteroid at center distance 380
from a radius-30 planet; the drag factor is 1 and the velocity (3, 4) is
rescaled to length 4. -/
theorem asteroid_drag_spec_witness :
    asteroid_drag 30 10 380 1 ⟨3, 4⟩ 5 =
      ⟨(3 : ℚ) / 5 * max 0 (5 - dragFactor 30 10 380 1),
       (4 : ℚ) / 5 * max 0 (5 - dragFactor 30 10 380 1)⟩ :=
  (asteroid_drag_spec 30 10 380 1 ⟨3, 4⟩ 5 (by norm_num) (by norm_num)).1

/-! ## Lemmas on `planetConsume` and `planet_colision` -/

/-- The surviving-entity list of `planet_colision` is that of its entity
loop, in every branch. -/
theorem planet_colision_surv (p : Planet) (pr pm : ℚ) (ppos : V3)
    (es : List Entity) :
    (planet_colision p pr pm ppos es).2.2.2 = (planetConsume ppos pr pm es).2.2 := by
  simp only [planet_colision]
  split
  · rfl
  · split <;> rfl

/-- When the planet is not collapsing, the accumulated radius and mass
are written back (whether or not the collapse triggers). -/
theorem planet_colision_values (p : Planet) (pr pm : ℚ) (ppos : V3)
    (es : List Entity) (h : p.collapsing = false) :
    (planet_colision p pr pm ppos es).2.1 = (planetConsume ppos pr pm es).1 ∧
    (planet_colision p pr pm ppos es).2.2.1 = (planetConsume ppos pr pm es).2.1 := by
  simp only [planet_colision, h]
  split
  · rename_i hcontra
    exact absurd hcontra (by simp)
  · split <;> exact ⟨rfl, rfl⟩

/-- A survivor of the entity loop was in the scanned list. -/
theorem planetConsume_surv_mem (ppos : V3) :
    ∀ (es : List Entity) (pr pm : ℚ) (e : Entity),
      e ∈ (planetConsume ppos pr pm es).2.2 → e ∈ es := by
  intro es
  induction es with
  | nil => simp [planetConsume]
  | cons x xs ih =>
    intro pr pm e h
    simp only [planetConsume] at h
    split at h
    · exact List.mem_cons_of_mem x (ih _ _ e h)
    · rcases List.mem_cons.mp h with heq | hmem
      · exact heq ▸ List.mem_cons_self x xs
      · exact List.mem_cons_of_mem x (ih _ _ e hmem)

/-- Any entity overlapping the planet at the radius the pass started
with is despawned: the running radius only grows (radii are nonnegative),
and overlap is monotone in it. -/
theorem planetConsume_destroys (ppos : V3) :
    ∀ (es : List Entity) (pr0 pr pm : ℚ) (e : Entity),
      (∀ x ∈ es, 0 ≤ x.radius) →
      distLt ppos e.pos (pr0 + e.radius) = true → pr0 ≤ pr →
      e ∉ (planetConsume ppos pr pm es).2.2 := by
  intro es
  induction es with
  | nil => simp [planetConsume]
  | cons x xs ih =>
    intro pr0 pr pm e hrad hov hle habs
    simp only [planetConsume] at habs
    have hradxs : ∀ y ∈ xs, 0 ≤ y.radius :=
      fun y hy => hrad y (List.mem_cons_of_mem x hy)
    split at habs
    · refine ih pr0 _ _ e hradxs hov ?_ habs
      split
      · exact hle
      · have : 0 ≤ x.radius * PLANET_RADIUS_CONSUME_SCALE :=
          mul_nonneg (hrad x (List.mem_cons_self x xs))
            (by norm_num [PLANET_RADIUS_CONSUME_SCALE])
        linarith
    · rename_i hkept
      rcases List.mem_cons.mp habs with heq | hmem
      · subst heq
        exact hkept (distLt_mono hov (by linarith))
      · exact ih pr0 pr pm e hradxs hov hle hmem

/-- A scan in which every entity is a bullet never changes the
accumulated radius or mass. -/
theorem planetConsume_bullets (ppos : V3) :
    ∀ (es : List Entity) (pr pm : ℚ), (∀ x ∈ es, x.isBullet = true) →
      (planetConsume ppos pr pm es).1 = pr ∧
      (planetConsume ppos pr pm es).2.1 = pm := by
  intro es
  induction es with
  | nil => intro pr pm _; exact ⟨rfl, rfl⟩
  | cons x xs ih =>
    intro pr pm hb
    have hx : x.isBullet = true := hb x (List.mem_cons_self x xs)
    have hxs : ∀ y ∈ xs, y.isBullet = true :=
      fun y hy => hb y (List.mem_cons_of_mem x hy)
    simp only [planetConsume, hx, if_true]
    split
    · exact ih pr pm hxs
    · exact ih pr pm hxs

/-- C3 (amended: the radius/mass increases apply while the planet is
Stable — while Collapsing the accumulated deltas are discarded, src lines
493-495): every entity overlapping the planet at the pass's starting
radius is destroyed (in any planet state); a Stable planet consuming a
single overlapping non-bullet entity gains exactly
`radius * PLANET_RADIUS_CONSUME_SCALE` radius and
`mass * PLANET_MASS_CONSUME_SCALE` mass, both strictly; and a Stable
pass scanning only bullets leaves radius and mass unchanged. -/
theorem planet_consumption (p : Planet) (pr pm : ℚ) (ppos : V3)
    (es : List Entity) (e : Entity) :
    ((∀ x ∈ es, 0 ≤ x.radius) → e ∈ es →
      distLt ppos e.pos (pr + e.radius) = true →
      e ∉ (planet_colision p pr pm ppos es).2.2.2) ∧
    (p.collapsing = false → e.isBullet = false → 0 < e.radius → 0 < e.mass →
      distLt ppos e.pos (pr + e.radius) = true →
      (planet_colision p pr pm ppos [e]).2.1
          = pr + e.radius * PLANET_RADIUS_CONSUME_SCALE ∧
      (planet_colision p pr pm ppos [e]).2.2.1
          = pm + e.mass * PLANET_MASS_CONSUME_SCALE ∧
      pr < (planet_colision p pr pm ppos [e]).2.1 ∧
      pm < (planet_colision p pr pm ppos [e]).2.2.1 ∧
      (planet_colision p pr pm ppos [e]).2.2.2 = []) ∧
    (p.collapsing = false → (∀ x ∈ es, x.isBullet = true) →
      (planet_colision p pr pm ppos es).2.1 = pr ∧
      (planet_colision p pr pm ppos es).2.2.1 = pm) := by
  refine ⟨?_, ?_, ?_⟩
  · intro hrad _ hov
    rw [planet_colision_surv]
    exact planetConsume_destroys ppos es pr pr pm e hrad hov le_rfl
  · intro hp hb hr hm hov
    have hsingle : planetConsume ppos pr pm [e]
        = (pr + e.radius * PLANET_RADIUS_CONSUME_SCALE,
           pm + e.mass * PLANET_MASS_CONSUME_SCALE, ([] : List Entity)) := by
      simp [planetConsume, hov, hb]
    have hv := planet_colision_values p pr pm ppos [e] hp
    have hs := planet_colision_surv p pr pm ppos [e]
    rw [hsingle] at hv hs
    dsimp only at hv hs
    have hscale : (0 : ℚ) < PLANET_RADIUS_CONSUME_SCALE := by
      norm_num [PLANET_RADIUS_CONSUME_SCALE]
    have hmscale : (0 : ℚ) < PLANET_MASS_CONSUME_SCALE := by
      norm_num [PLANET_MASS_CONSUME_SCALE]
    refine ⟨hv.1, hv.2, ?_, ?_, hs⟩
    · rw [hv.1]
      linarith [mul_pos hr hscale]
    · rw [hv.2]
      linarith [mul_pos hm hmscale]
  · intro hp hb
    have hv := planet_colision_values p pr pm ppos es hp
    have hbm := planetConsume_bullets ppos es pr pm hb
    exact ⟨hv.1.trans hbm.1, hv.2.trans hbm.2⟩

/-- C3 counterexample: a Collapsing planet (radius 30, mass 2500)
overlapped by a non-bullet entity of radius 10 and mass 10 destroys the
entity but keeps radius 30 — not the radius
`30 + 10 * PLANET_RADIUS_CONSUME_SCALE` the claim (read over every pass)
predicts. -/
theorem planet_consumption_counterexample :
    (planet_colision ⟨true, 30, 2500, 0⟩ 30 2500 ⟨0, 0, 0⟩
        [⟨10, 10, ⟨0, 0, 0⟩, false⟩]).2.2.2 = [] ∧
    (planet_colision ⟨true, 30, 2500, 0⟩ 30 2500 ⟨0, 0, 0⟩
        [⟨10, 10, ⟨0, 0, 0⟩, false⟩]).2.1 = 30 ∧
    ¬((planet_colision ⟨true, 30, 2500, 0⟩ 30 2500 ⟨0, 0, 0⟩
        [⟨10, 10, ⟨0, 0, 0⟩, false⟩]).2.1
        = 30 + 10 * PLANET_RADIUS_CONSUME_SCALE) := by
  norm_num [planet_colision, planetConsume, distLt, dist2,
    PLANET_RADIUS_CONSUME_SCALE]

/-- C10: while the planet is Collapsing, the collision pass still
destroys every overlapping entity, but the written radius and mass and
the whole `Planet` component (collapse snapshot and timer included) are
returned unchanged: the accumulated consumption deltas are discarded. -/
theorem collapsing_consumption_discarded (p : Planet) (pr pm : ℚ)
    (ppos : V3) (es : List Entity) (h : p.collapsing = true) :
    (planet_colision p pr pm ppos es).1 = p ∧
    (planet_colision p pr pm ppos es).2.1 = pr ∧
    (planet_colision p pr pm ppos es).2.2.1 = pm ∧
    ((∀ x ∈ es, 0 ≤ x.radius) → ∀ e ∈ es,
      distLt ppos e.pos (pr + e.radius) = true →
      e ∉ (planet_colision p pr pm ppos es).2.2.2) := by
  have hfix : planet_colision p pr pm ppos es
      = (p, pr, pm, (planetConsume ppos pr pm es).2.2) := by
    simp [planet_colision, h]
  refine ⟨by rw [hfix], by rw [hfix], by rw [hfix], ?_⟩
  intro hrad e _ hov
  rw [planet_colision_surv]
  exact planetConsume_destroys ppos es pr pr pm e hrad hov le_rfl

/-- Witness for C10 at a concrete Collapsing planet. -/
theorem collapsing_consumption_discarded_witness :
    (planet_colision ⟨true, 9, 8, 7⟩ 30 100 ⟨0, 0, 0⟩ []).1 = ⟨true, 9, 8, 7⟩ :=
  (collapsing_consumption_discarded ⟨true, 9, 8, 7⟩ 30 100 ⟨0, 0, 0⟩ [] rfl).1

/-- C2: (i) a Stable planet whose post-consumption mass reaches
`PLANET_MASS_COLLAPSE_TRIGGER` becomes Collapsing in that same
`planet_colision` pass, snapshotting the just-written radius and mass
and zeroing the collapse timer; (ii) while Collapsing, `planet_collapse`
clamps the timer at `PLANET_COLLAPSE_TIME_MS` and, with
`f = timer / duration`, sets radius to
`PLANET_COLLAPSE_SIZE + (1 - f^8) * (init_size - PLANET_COLLAPSE_SIZE)`
and mass to `init_mass + f * (PLANET_COLLAPSE_MASS - init_mass)`;
(iii) radius reaches exactly `PLANET_COLLAPSE_SIZE` and mass exactly
`PLANET_COLLAPSE_MASS` when the elapsed time reaches the duration, and
never before. -/
theorem planet_collapse_spec (p q : Planet) (pr pm r m dtMs : ℚ)
    (ppos : V3) (es : List Entity) :
    (p.collapsing = false →
      PLANET_MASS_COLLAPSE_TRIGGER ≤ (planetConsume ppos pr pm es).2.1 →
      planet_colision p pr pm ppos es =
        ({ collapsing := true
           collapse_init_size := (planetConsume ppos pr pm es).1
           collapse_init_mass := (planetConsume ppos pr pm es).2.1
           collapse_timer := 0 },
         (planetConsume ppos pr pm es).1,
         (planetConsume ppos pr pm es).2.1,
         (planetConsume ppos pr pm es).2.2)) ∧
    (q.collapsing = true →
      planet_collapse q r m dtMs =
        ({ q with collapse_timer := min PLANET_COLLAPSE_TIME_MS (q.collapse_timer + dtMs) },
         PLANET_COLLAPSE_SIZE
           + (1 - (min PLANET_COLLAPSE_TIME_MS (q.collapse_timer + dtMs)
                / PLANET_COLLAPSE_TIME_MS) ^ 8)
             * (q.collapse_init_size - PLANET_COLLAPSE_SIZE),
         q.collapse_init_mass
           + min PLANET_COLLAPSE_TIME_MS (q.collapse_timer + dtMs)
                / PLANET_COLLAPSE_TIME_MS
             * (PLANET_COLLAPSE_MASS - q.collapse_init_mass))) ∧
    (q.collapsing = true → 0 ≤ q.collapse_timer → 0 ≤ dtMs →
      PLANET_COLLAPSE_SIZE < q.collapse_init_size →
      q.collapse_init_mass < PLANET_COLLAPSE_MASS →
      ((PLANET_COLLAPSE_TIME_MS ≤ q.collapse_timer + dtMs →
        (planet_collapse q r m dtMs).2.1 = PLANET_COLLAPSE_SIZE ∧
        (planet_collapse q r m dtMs).2.2 = PLANET_COLLAPSE_MASS) ∧
       (q.collapse_timer + dtMs < PLANET_COLLAPSE_TIME_MS →
        PLANET_COLLAPSE_SIZE < (planet_collapse q r m dtMs).2.1 ∧
        (planet_collapse q r m dtMs).2.2 < PLANET_COLLAPSE_MASS))) := by
  have hT : (0 : ℚ) < PLANET_COLLAPSE_TIME_MS := by
    norm_num [PLANET_COLLAPSE_TIME_MS]
  refine ⟨?_, ?_, ?_⟩
  · intro h1 h2
    simp [planet_colision, h1, h2]
  · intro hq
    simp [planet_collapse, hq]
  · intro hq h0 hd hsz hms
    have hproj : (planet_collapse q r m dtMs).2.1
        = PLANET_COLLAPSE_SIZE
          + (1 - (min PLANET_COLLAPSE_TIME_MS (q.collapse_timer + dtMs)
              / PLANET_COLLAPSE_TIME_MS) ^ 8)
            * (q.collapse_init_size - PLANET_COLLAPSE_SIZE) ∧
        (planet_collapse q r m dtMs).2.2
        = q.collapse_init_mass
          + min PLANET_COLLAPSE_TIME_MS (q.collapse_timer + dtMs)
              / PLANET_COLLAPSE_TIME_MS
            * (PLANET_COLLAPSE_MASS - q.collapse_init_mass) := by
      simp [planet_collapse, hq]
    constructor
    · intro hge
      have htT : min PLANET_COLLAPSE_TIME_MS (q.collapse_timer + dtMs)
          = PLANET_COLLAPSE_TIME_MS := min_eq_left hge
      constructor
      · rw [hproj.1, htT, div_self (ne_of_gt hT)]
        ring
      · rw [hproj.2, htT, div_self (ne_of_gt hT)]
        ring
    · intro hlt
      have htv : min PLANET_COLLAPSE_TIME_MS (q.collapse_timer + dtMs)
          = q.collapse_timer + dtMs := min_eq_right (le_of_lt hlt)
      have hf0 : 0 ≤ (q.collapse_timer + dtMs) / PLANET_COLLAPSE_TIME_MS :=
        div_nonneg (by linarith) (le_of_lt hT)
      have hf1 : (q.collapse_timer + dtMs) / PLANET_COLLAPSE_TIME_MS < 1 :=
        (div_lt_one hT).mpr hlt
      have hpow : ((q.collapse_timer + dtMs) / PLANET_COLLAPSE_TIME_MS) ^ 8 < 1 :=
        pow_lt_one₀ hf0 hf1 (by norm_num)
      have hpow0 : 0 ≤ ((q.collapse_timer + dtMs) / PLANET_COLLAPSE_TIME_MS) ^ 8 :=
        pow_nonneg hf0 8
      constructor
      · rw [hproj.1, htv]
        nlinarith [mul_pos
          (by linarith :
            (0 : ℚ) < 1 - ((q.collapse_timer + dtMs) / PLANET_COLLAPSE_TIME_MS) ^ 8)
          (by linarith : (0 : ℚ) < q.collapse_init_size - PLANET_COLLAPSE_SIZE)]
      · rw [hproj.2, htv]
        nlinarith [mul_pos
          (by linarith :
            (0 : ℚ) < 1 - (q.collapse_timer + dtMs) / PLANET_COLLAPSE_TIME_MS)
          (by linarith : (0 : ℚ) < PLANET_COLLAPSE_MASS - q.collapse_init_mass)]

/-! ## Lemmas on the score cast and the asteroid-collision pass -/

/-- Within the configured radius band the raw score lies in
`[0, SCORE_BOUNDS_MAX - SCORE_BOUNDS_MIN]` (not `[SCORE_BOUNDS_MIN,
SCORE_BOUNDS_MAX]`: the source multiplies the normalized factor by the
band width without adding `SCORE_BOUNDS_MIN`). -/
theorem asteroidScore_band (radius : ℚ) (h1 : SCORE_ASTEROID_RADIUS_MIN ≤ radius)
    (h2 : radius ≤ SCORE_ASTEROID_RADIUS_MAX) :
    0 ≤ asteroidScore radius ∧
    asteroidScore radius ≤ SCORE_BOUNDS_MAX - SCORE_BOUNDS_MIN := by
  norm_num [SCORE_ASTEROID_RADIUS_MIN, SCORE_ASTEROID_RADIUS_MAX] at h1 h2
  norm_num [asteroidScore, SCORE_ASTEROID_RADIUS_MIN, SCORE_ASTEROID_RADIUS_MAX,
    SCORE_BOUNDS_MIN, SCORE_BOUNDS_MAX]
  constructor <;> nlinarith

/-- The `as u32` cast is monotone into `ℕ` bounds. -/
theorem ratToU32_le {q : ℚ} {n : ℕ} (h : q ≤ (n : ℚ)) : ratToU32 q ≤ n := by
  unfold ratToU32
  split
  · exact Nat.zero_le n
  · refine le_trans (min_le_right _ _) (Int.toNat_le.mpr ?_)
    have := Int.floor_le_floor h
    rwa [Int.floor_natCast] at this

/-- The `as u32` cast saturates below `2^32`. -/
theorem ratToU32_lt (q : ℚ) : ratToU32 q < 2 ^ 32 := by
  unfold ratToU32
  split
  · norm_num
  · exact lt_of_le_of_lt (min_le_left _ _) (by norm_num)

/-- The cast of a natural literal below the saturation bound. -/
theorem ratToU32_natCast (n : ℕ) : ratToU32 (n : ℚ) = min (2 ^ 32 - 1) n := by
  unfold ratToU32
  rw [if_neg (not_lt.mpr (Nat.cast_nonneg n)), Int.floor_natCast,
    Int.toNat_natCast]

/-- A pass with exactly one asteroid and one overlapping bullet is one
`hitEffects` application to the initial buffer. -/
theorem asteroid_collision_single (cosF sinF : ℚ → ℚ) (twoPi : ℚ)
    (rq : ℕ → ℚ) (rs : ℕ → ℕ) (a : AsteroidE) (b : BulletE) (score0 : ℕ)
    (hov : distLt a.pos b.pos (a.radius + b.radius) = true) :
    asteroid_collision cosF sinF twoPi rq rs [a] [b] score0 =
      hitEffects cosF sinF twoPi rq rs 0 0 a
        { despawnA := [], despawnB := [], explosions := [], children := []
          score := score0, iq := 0, is := 0 } := by
  simp [asteroid_collision, asteroidLoop, scanBullets, hov]

/-- The fracture block spawns `ASTEROID_FRACTURE_COUNT` children above
the threshold and none at or below it. -/
theorem fractureChildren_length (cosF sinF : ℚ → ℚ) (twoPi : ℚ)
    (rq : ℕ → ℚ) (rs : ℕ → ℕ) (iq is : ℕ) (a : AsteroidE) :
    (fractureChildren cosF sinF twoPi rq rs iq is a).1.length
      = if ASTEROID_FRACTURE_MIN_RADIUS < a.radius then ASTEROID_FRACTURE_COUNT
        else 0 := by
  unfold fractureChildren
  split <;> simp

/-- C1 (amended: within the radius band the score increment lies in
`[0, SCORE_BOUNDS_MAX - SCORE_BOUNDS_MIN]` = `[0, 70]`, not in
`[SCORE_BOUNDS_MIN, SCORE_BOUNDS_MAX]`): one bullet overlapping one
asteroid leaves both absent from the store after the pass, spawns
exactly one Explosion at the asteroid's position with its velocity, and
increases the score by exactly the truncation of
`(1 - (radius - min)/(max - min)) * (score_max - score_min)`. -/
theorem mutual_destruction (cosF sinF : ℚ → ℚ) (twoPi : ℚ) (rq : ℕ → ℚ)
    (rs : ℕ → ℕ) (a : AsteroidE) (b : BulletE) (score0 : ℕ)
    (hov : distLt a.pos b.pos (a.radius + b.radius) = true)
    (hs : score0 + ratToU32 (asteroidScore a.radius) < 2 ^ 32) :
    remaining [a]
        (asteroid_collision cosF sinF twoPi rq rs [a] [b] score0).despawnA = [] ∧
    remaining [b]
        (asteroid_collision cosF sinF twoPi rq rs [a] [b] score0).despawnB = [] ∧
    (asteroid_collision cosF sinF twoPi rq rs [a] [b] score0).explosions
      = [⟨a.pos, a.vel, EXPLOSION_MAX_LIFE_MS⟩] ∧
    (asteroid_collision cosF sinF twoPi rq rs [a] [b] score0).score
      = score0 + ratToU32 (asteroidScore a.radius) ∧
    (SCORE_ASTEROID_RADIUS_MIN ≤ a.radius → a.radius ≤ SCORE_ASTEROID_RADIUS_MAX →
      ratToU32 (asteroidScore a.radius) ≤ 70) := by
  rw [asteroid_collision_single cosF sinF twoPi rq rs a b score0 hov]
  refine ⟨rfl, rfl, rfl, ?_, ?_⟩
  · show (score0 + ratToU32 (asteroidScore a.radius)) % 2 ^ 32 = _
    exact Nat.mod_eq_of_lt hs
  · intro h1 h2
    refine ratToU32_le (le_trans (asteroidScore_band a.radius h1 h2).2 ?_)
    norm_num [SCORE_BOUNDS_MIN, SCORE_BOUNDS_MAX]

/-- Witness for C1: a radius-12 asteroid at the origin, a bullet 5 away
(circles of radii 12 and 1 overlap); the pass spawns one Explosion
carrying the asteroid's position and velocity. -/
theorem mutual_destruction_witness :
    (asteroid_collision (fun _ => 1) (fun _ => 0) 0 (fun _ => 0) (fun _ => 0)
        [⟨12, 10, ⟨0, 0, 0⟩, ⟨1, 2⟩⟩] [⟨1, ⟨5, 0, 0⟩⟩] 0).explosions
      = [⟨⟨0, 0, 0⟩, ⟨1, 2⟩, EXPLOSION_MAX_LIFE_MS⟩] :=
  (mutual_destruction (fun _ => 1) (fun _ => 0) 0 (fun _ => 0) (fun _ => 0)
    ⟨12, 10, ⟨0, 0, 0⟩, ⟨1, 2⟩⟩ ⟨1, ⟨5, 0, 0⟩⟩ 0
    (by norm_num [distLt, dist2])
    (by simpa using ratToU32_lt (asteroidScore 12))).2.2.1

/-- C1 counterexample: a radius-20 asteroid is inside the configured
score band (`[4, 20]`), yet destroying it increments the score by `0`,
which is below `SCORE_BOUNDS_MIN = 10` — the increment is not in
`[score_min, score_max]` as claimed. -/
theorem mutual_destruction_counterexample :
    (SCORE_ASTEROID_RADIUS_MIN ≤ (20 : ℚ) ∧ (20 : ℚ) ≤ SCORE_ASTEROID_RADIUS_MAX) ∧
    (asteroid_collision (fun _ => 1) (fun _ => 0) 0 (fun _ => 0) (fun _ => 0)
        [⟨20, 10, ⟨0, 0, 0⟩, ⟨0, 0⟩⟩] [⟨1, ⟨0, 0, 0⟩⟩] 0).score = 0 ∧
    ¬(SCORE_BOUNDS_MIN ≤ ((0 : ℕ) : ℚ)) := by
  refine ⟨⟨by norm_num [SCORE_ASTEROID_RADIUS_MIN],
           by norm_num [SCORE_ASTEROID_RADIUS_MAX]⟩, ?_,
          by norm_num [SCORE_BOUNDS_MIN]⟩
  rw [asteroid_collision_single (fun _ => 1) (fun _ => 0) 0 (fun _ => 0)
    (fun _ => 0) ⟨20, 10, ⟨0, 0, 0⟩, ⟨0, 0⟩⟩ ⟨1, ⟨0, 0, 0⟩⟩ 0
    (by norm_num [distLt, dist2])]
  show (0 + ratToU32 (asteroidScore 20)) % 2 ^ 32 = 0
  have h0 : asteroidScore 20 = 0 := by
    norm_num [asteroidScore, SCORE_ASTEROID_RADIUS_MIN, SCORE_ASTEROID_RADIUS_MAX,
      SCORE_BOUNDS_MIN, SCORE_BOUNDS_MAX]
  have h1 : ratToU32 0 = 0 := by
    have := ratToU32_natCast 0
    simpa using this
  rw [h0, h1]
  norm_num

/-- C4 (amended: each child's velocity offset draws *two* independent
speeds from `[ASTEROID_FRACTURE_VEL_MIN, ASTEROID_FRACTURE_VEL_MAX)` —
one multiplied by `cos θ` for x and one by `sin θ` for y — rather than a
single speed directed along the spawn angle; see the counterexample):
an asteroid destroyed above the fracture threshold spawns exactly
`ASTEROID_FRACTURE_COUNT` children at angles evenly spaced by
`twoPi / count` from the random base angle `rq iq`, each with radius
`parent_radius * ASTEROID_FRACTURE_RADIUS_FACTOR`, mass
`parent_mass * ASTEROID_FRACTURE_MASS_FACTOR`, position offset from the
parent's center by the child radius along its spawn angle, and a fresh
full lifetime; an asteroid at or below the threshold spawns none. -/
theorem fracture_spec (cosF sinF : ℚ → ℚ) (twoPi : ℚ) (rq : ℕ → ℚ)
    (rs : ℕ → ℕ) (iq is : ℕ) (a : AsteroidE) :
    (ASTEROID_FRACTURE_MIN_RADIUS < a.radius →
      (fractureChildren cosF sinF twoPi rq rs iq is a).1
        = (List.range ASTEROID_FRACTURE_COUNT).map (fun (i : ℕ) =>
            { seed := rs (is + i)
              radius := a.radius * ASTEROID_FRACTURE_RADIUS_FACTOR
              mass := a.mass * ASTEROID_FRACTURE_MASS_FACTOR
              pos := ⟨a.pos.x + a.radius * ASTEROID_FRACTURE_RADIUS_FACTOR
                        * cosF (rq iq + (i : ℚ)
                            * (twoPi / (ASTEROID_FRACTURE_COUNT : ℚ))),
                      a.pos.y + a.radius * ASTEROID_FRACTURE_RADIUS_FACTOR
                        * sinF (rq iq + (i : ℚ)
                            * (twoPi / (ASTEROID_FRACTURE_COUNT : ℚ))), 0⟩
              vel := ⟨a.vel.x + cosF (rq iq + (i : ℚ)
                            * (twoPi / (ASTEROID_FRACTURE_COUNT : ℚ)))
                          * rq (iq + 1 + 2 * i),
                      a.vel.y + sinF (rq iq + (i : ℚ)
                            * (twoPi / (ASTEROID_FRACTURE_COUNT : ℚ)))
                          * rq (iq + 2 + 2 * i)⟩
              life := ASTEROID_LIFETIME_MS }) ∧
      (fractureChildren cosF sinF twoPi rq rs iq is a).1.length
        = ASTEROID_FRACTURE_COUNT) ∧
    (a.radius ≤ ASTEROID_FRACTURE_MIN_RADIUS →
      (fractureChildren cosF sinF twoPi rq rs iq is a).1 = []) := by
  constructor
  · intro h
    refine ⟨?_, ?_⟩
    · simp [fractureChildren, h]
    · rw [fractureChildren_length, if_pos h]
  · intro h
    simp [fractureChildren, not_lt.mpr h]

/-- C4 counterexample: take a base angle `θ₀` with `cos θ₀ = 3/5` and
`sin θ₀ = 4/5` (a genuine point of the unit circle) and speed draws 10
and 20 (both inside the configured `[10, 30)` band).  The first child's
velocity offset is `(3/5 · 10, 4/5 · 20) = (6, 16)`, which is not
`parent_velocity + t · (cos θ₀, sin θ₀)` for any single speed `t`: the
claim's "a random speed directed along the spawn angle" fails. -/
theorem fracture_velocity_counterexample :
    ((3 : ℚ) / 5) ^ 2 + ((4 : ℚ) / 5) ^ 2 = 1 ∧
    (ASTEROID_FRACTURE_VEL_MIN ≤ (10 : ℚ) ∧
     (10 : ℚ) < ASTEROID_FRACTURE_VEL_MAX ∧
     ASTEROID_FRACTURE_VEL_MIN ≤ (20 : ℚ) ∧
     (20 : ℚ) < ASTEROID_FRACTURE_VEL_MAX) ∧
    (fractureChildren (fun _ => 3 / 5) (fun _ => 4 / 5) 0
        (fun n => if n = 1 then 10 else if n = 2 then 20 else 0)
        (fun _ => 0) 0 0 ⟨10, 10, ⟨0, 0, 0⟩, ⟨0, 0⟩⟩).1.headI.vel
      = ⟨6, 16⟩ ∧
    ¬∃ t : ℚ, (⟨6, 16⟩ : V2) = ⟨0 + t * (3 / 5), 0 + t * (4 / 5)⟩ := by
  refine ⟨by norm_num,
          ⟨by norm_num [ASTEROID_FRACTURE_VEL_MIN],
           by norm_num [ASTEROID_FRACTURE_VEL_MAX],
           by norm_num [ASTEROID_FRACTURE_VEL_MIN],
           by norm_num [ASTEROID_FRACTURE_VEL_MAX]⟩, ?_, ?_⟩
  · have hrange : List.range ASTEROID_FRACTURE_COUNT = [0, 1, 2] := rfl
    have hcond : ASTEROID_FRACTURE_MIN_RADIUS
        < (⟨10, 10, ⟨0, 0, 0⟩, ⟨0, 0⟩⟩ : AsteroidE).radius := by
      norm_num [ASTEROID_FRACTURE_MIN_RADIUS]
    simp only [fractureChildren, if_pos hcond, hrange, List.map_cons,
      List.headI]
    norm_num [V2.mk.injEq]
  · rintro ⟨t, ht⟩
    rw [V2.mk.injEq] at ht
    obtain ⟨h1, h2⟩ := ht
    have ht1 : t = 10 := by linarith
    have ht2 : t = 20 := by linarith
    linarith

/-- The inner bullet loop, characterized: with `k` overlapping bullets in
`bs`, the asteroid's despawn is issued `k` times, `k` explosions and
`k` fracture batches are spawned, the score is bumped `k` times, and `k`
bullet despawns are issued. -/
theorem scanBullets_effects (cosF sinF : ℚ → ℚ) (twoPi : ℚ) (rq : ℕ → ℚ)
    (rs : ℕ → ℕ) (ai : ℕ) (a : AsteroidE) :
    ∀ (bs : List BulletE) (bi : ℕ) (st : PassOut), st.score < 2 ^ 32 →
      (scanBullets cosF sinF twoPi rq rs ai a bi bs st).despawnA
        = st.despawnA ++ List.replicate
            (bs.filter fun x => distLt a.pos x.pos (a.radius + x.radius)).length
            ai ∧
      (scanBullets cosF sinF twoPi rq rs ai a bi bs st).explosions
        = st.explosions ++ List.replicate
            (bs.filter fun x => distLt a.pos x.pos (a.radius + x.radius)).length
            ⟨a.pos, a.vel, EXPLOSION_MAX_LIFE_MS⟩ ∧
      (scanBullets cosF sinF twoPi rq rs ai a bi bs st).score
        = (st.score
            + (bs.filter fun x => distLt a.pos x.pos (a.radius + x.radius)).length
              * ratToU32 (asteroidScore a.radius)) % 2 ^ 32 ∧
      (scanBullets cosF sinF twoPi rq rs ai a bi bs st).children.length
        = st.children.length
          + (bs.filter fun x => distLt a.pos x.pos (a.radius + x.radius)).length
            * (if ASTEROID_FRACTURE_MIN_RADIUS < a.radius
               then ASTEROID_FRACTURE_COUNT else 0) ∧
      (scanBullets cosF sinF twoPi rq rs ai a bi bs st).despawnB.length
        = st.despawnB.length
          + (bs.filter fun x => distLt a.pos x.pos (a.radius + x.radius)).length := by
  intro bs
  induction bs with
  | nil =>
    intro bi st hst
    refine ⟨by simp [scanBullets], by simp [scanBullets], ?_,
            by simp [scanBullets], by simp [scanBullets]⟩
    simp only [scanBullets, List.filter_nil, List.length_nil, Nat.zero_mul,
      Nat.add_zero]
    omega
  | cons b rest ih =>
    intro bi st hst
    by_cases hov : distLt a.pos b.pos (a.radius + b.radius) = true
    · have hstep : scanBullets cosF sinF twoPi rq rs ai a bi (b :: rest) st
          = scanBullets cosF sinF twoPi rq rs ai a (bi + 1) rest
              (hitEffects cosF sinF twoPi rq rs ai bi a st) := by
        simp [scanBullets, hov]
      have hlt2 : (hitEffects cosF sinF twoPi rq rs ai bi a st).score < 2 ^ 32 := by
        simp only [hitEffects]
        exact Nat.mod_lt _ (by norm_num)
      obtain ⟨H1, H2, H3, H4, H5⟩ :=
        ih (bi + 1) (hitEffects cosF sinF twoPi rq rs ai bi a st) hlt2
      have hfil : ((b :: rest).filter fun x => distLt a.pos x.pos (a.radius + x.radius))
          = b :: (rest.filter fun x => distLt a.pos x.pos (a.radius + x.radius)) := by
        simp [List.filter_cons, hov]
      rw [hstep]
      refine ⟨?_, ?_, ?_, ?_, ?_⟩
      · rw [H1, hfil]
        simp [hitEffects, List.replicate_succ, List.append_assoc]
      · rw [H2, hfil]
        simp [hitEffects, List.replicate_succ, List.append_assoc]
      · rw [H3, hfil]
        simp only [hitEffects, List.length_cons, Nat.mod_add_mod]
        congr 1
        ring
      · rw [H4, hfil]
        simp [hitEffects, fractureChildren_length, List.length_cons]
        split <;> ring
      · rw [H5, hfil]
        simp [hitEffects, List.length_cons]
        omega
    · have hstep : scanBullets cosF sinF twoPi rq rs ai a bi (b :: rest) st
          = scanBullets cosF sinF twoPi rq rs ai a (bi + 1) rest st := by
        simp [scanBullets, hov]
      have hfil : ((b :: rest).filter fun x => distLt a.pos x.pos (a.radius + x.radius))
          = rest.filter fun x => distLt a.pos x.pos (a.radius + x.radius) := by
        simp [List.filter_cons, hov]
      rw [hstep, hfil]
      exact ih (bi + 1) st hst

/-- C8 (amended: the pass deduplicates nothing — every overlapping
(asteroid, bullet) pair fires the full effect set, so an asteroid
overlapping `k` bullets in one pass is despawned (idempotently: it is
absent from the store afterwards) but produces `k` Explosions, `k` score
awards and `k` batches of `ASTEROID_FRACTURE_COUNT` fracture children). -/
theorem per_pair_effects (cosF sinF : ℚ → ℚ) (twoPi : ℚ) (rq : ℕ → ℚ)
    (rs : ℕ → ℕ) (a : AsteroidE) (bs : List BulletE) (score0 : ℕ)
    (h : score0 < 2 ^ 32) :
    (asteroid_collision cosF sinF twoPi rq rs [a] bs score0).despawnA
      = List.replicate
          (bs.filter fun x => distLt a.pos x.pos (a.radius + x.radius)).length 0 ∧
    (asteroid_collision cosF sinF twoPi rq rs [a] bs score0).explosions
      = List.replicate
          (bs.filter fun x => distLt a.pos x.pos (a.radius + x.radius)).length
          ⟨a.pos, a.vel, EXPLOSION_MAX_LIFE_MS⟩ ∧
    (asteroid_collision cosF sinF twoPi rq rs [a] bs score0).score
      = (score0
          + (bs.filter fun x => distLt a.pos x.pos (a.radius + x.radius)).length
            * ratToU32 (asteroidScore a.radius)) % 2 ^ 32 ∧
    (asteroid_collision cosF sinF twoPi rq rs [a] bs score0).children.length
      = (bs.filter fun x => distLt a.pos x.pos (a.radius + x.radius)).length
        * (if ASTEROID_FRACTURE_MIN_RADIUS < a.radius
           then ASTEROID_FRACTURE_COUNT else 0) ∧
    (asteroid_collision cosF sinF twoPi rq rs [a] bs score0).despawnB.length
      = (bs.filter fun x => distLt a.pos x.pos (a.radius + x.radius)).length ∧
    (1 ≤ (bs.filter fun x => distLt a.pos x.pos (a.radius + x.radius)).length →
      remaining [a]
        (asteroid_collision cosF sinF twoPi rq rs [a] bs score0).despawnA = []) := by
  have hA : asteroid_collision cosF sinF twoPi rq rs [a] bs score0
      = scanBullets cosF sinF twoPi rq rs 0 a 0 bs
          { despawnA := [], despawnB := [], explosions := [], children := []
            score := score0, iq := 0, is := 0 } := by
    simp [asteroid_collision, asteroidLoop]
  obtain ⟨H1, H2, H3, H4, H5⟩ := scanBullets_effects cosF sinF twoPi rq rs 0 a bs 0
    { despawnA := [], despawnB := [], explosions := [], children := []
      score := score0, iq := 0, is := 0 } h
  rw [hA]
  refine ⟨by simpa using H1, by simpa using H2, by simpa using H3,
          by simpa using H4, by simpa using H5, ?_⟩
  intro hk
  rw [H1]
  obtain ⟨j, hj⟩ : ∃ j,
      (bs.filter fun x => distLt a.pos x.pos (a.radius + x.radius)).length
        = j + 1 :=
    ⟨(bs.filter fun x => distLt a.pos x.pos (a.radius + x.radius)).length - 1,
     by omega⟩
  rw [hj]
  simp [remaining, remainingFrom, List.replicate_succ]

/-- Witness for C8: one radius-4 asteroid overlapped by two bullets; the
pass spawns one Explosion per overlapping pair. -/
theorem per_pair_effects_witness :
    (asteroid_collision (fun _ => 1) (fun _ => 0) 0 (fun _ => 0) (fun _ => 0)
        [⟨4, 10, ⟨0, 0, 0⟩, ⟨0, 0⟩⟩] [⟨1, ⟨0, 0, 0⟩⟩, ⟨1, ⟨1, 0, 0⟩⟩] 0).explosions
      = List.replicate
          ((([⟨1, ⟨0, 0, 0⟩⟩, ⟨1, ⟨1, 0, 0⟩⟩] : List BulletE).filter fun x =>
            distLt ⟨0, 0, 0⟩ x.pos (4 + x.radius)).length)
          ⟨⟨0, 0, 0⟩, ⟨0, 0⟩, EXPLOSION_MAX_LIFE_MS⟩ :=
  (per_pair_effects (fun _ => 1) (fun _ => 0) 0 (fun _ => 0) (fun _ => 0)
    ⟨4, 10, ⟨0, 0, 0⟩, ⟨0, 0⟩⟩ [⟨1, ⟨0, 0, 0⟩⟩, ⟨1, ⟨1, 0, 0⟩⟩] 0
    (by norm_num)).2.1

/-- C8 counterexample: a radius-4 asteroid whose circle overlaps two
bullets in one pass yields two Explosions (not exactly one) and two
score awards of 70 each (140, not one 70). -/
theorem per_pair_counterexample :
    (asteroid_collision (fun _ => 1) (fun _ => 0) 0 (fun _ => 0) (fun _ => 0)
        [⟨4, 10, ⟨0, 0, 0⟩, ⟨0, 0⟩⟩] [⟨1, ⟨0, 0, 0⟩⟩, ⟨1, ⟨1, 0, 0⟩⟩] 0).explosions.length
      = 2 ∧
    (asteroid_collision (fun _ => 1) (fun _ => 0) 0 (fun _ => 0) (fun _ => 0)
        [⟨4, 10, ⟨0, 0, 0⟩, ⟨0, 0⟩⟩] [⟨1, ⟨0, 0, 0⟩⟩, ⟨1, ⟨1, 0, 0⟩⟩] 0).score
      = 140 ∧
    ¬((2 : ℕ) = 1) := by
  have hov1 : distLt (⟨0, 0, 0⟩ : V3) ⟨0, 0, 0⟩ ((4 : ℚ) + 1) = true := by
    norm_num [distLt, dist2]
  have hov2 : distLt (⟨0, 0, 0⟩ : V3) ⟨1, 0, 0⟩ ((4 : ℚ) + 1) = true := by
    norm_num [distLt, dist2]
  have hnof : ¬(ASTEROID_FRACTURE_MIN_RADIUS < (4 : ℚ)) := by
    norm_num [ASTEROID_FRACTURE_MIN_RADIUS]
  have h70 : ratToU32 (asteroidScore 4) = 70 := by
    have hscore : asteroidScore 4 = ((70 : ℕ) : ℚ) := by
      norm_num [asteroidScore, SCORE_ASTEROID_RADIUS_MIN,
        SCORE_ASTEROID_RADIUS_MAX, SCORE_BOUNDS_MIN, SCORE_BOUNDS_MAX]
    rw [hscore, ratToU32_natCast]
    norm_num
  refine ⟨?_, ?_, by norm_num⟩ <;>
    simp [asteroid_collision, asteroidLoop, scanBullets, hitEffects,
      fractureChildren, hov1, hov2, hnof, h70]

/-- C9 (amended: `setup_playing` resets score, elapsed playing time and
the game-over grace timer to zero and spawns the initial Ship and
Planet, but does *not* reset the trajectory-display toggle, which keeps
whatever value the previous session left): the whole effect of one
`setup_playing` call. -/
theorem setup_playing_spec (g : Game) :
    setup_playing g =
      ({ score := 0, time := 0, gameover_time := 0
         draw_trajectory := g.draw_trajectory },
       { fire_delay := 0, radius := SHIP_RADIUS, mass := SHIP_MASS
         pos := ⟨0, 300, 0⟩, vel := ⟨0, 0⟩, angvel := 0 },
       (Planet.new, PLANET_START_RADIUS, PLANET_START_MASS, ⟨0, 0, 0⟩)) := rfl

/-- C9 counterexample: entering Playing with the trajectory toggle on
leaves it on — `setup_playing` does not reset it. -/
theorem setup_playing_counterexample :
    (setup_playing ⟨3, 4, 5, true⟩).1.draw_trajectory = true ∧
    ¬((setup_playing ⟨3, 4, 5, true⟩).1.draw_trajectory = false) := by
  constructor
  · rfl
  · simp [setup_playing]

end Rusteroids
